import Mathlib

/-!
Verification of the entailment-checking harness in `z3-verification.py`.

The script builds algebraic terms over an uninterpreted sort `U` with binary
function symbols `f`, `m`, `p` and a constant `e`, and runs a `check` loop
that, for each conclusion, opens a fresh Z3 solver, sets a millisecond
timeout, adds the assumptions and the negation of the conclusion, and
classifies the solver's three-valued answer as "holds", "doesn't hold" or
"unknown".

The embedding below models Z3 terms as a first-order syntax tree, the solver
as its constraint list plus its timeout setting, and the external decision
procedure (`s.check()` together with the wall clock around it) as an oracle
parameter mapping a solver state to a three-valued result and an elapsed
time in seconds.  Console output is modelled as a list of structured lines.
-/

namespace Z3V

/-- A Z3 AST over the uninterpreted sort `U`: nullary constants/variables
(`Const`, `Consts` in the script) and applications of the declared binary
function symbols (`Function('f', U, U, U)` etc.). -/
inductive Term where
  | const : String → Term
  | app2 : String → Term → Term → Term
deriving DecidableEq, Repr

/-- Symbol `f = Function('f', U, U, U)` — implication. -/
def f (a b : Term) : Term := Term.app2 "f" a b

/-- Symbol `m = Function('m', U, U, U)` — multiplication. -/
def m (a b : Term) : Term := Term.app2 "m" a b

/-- Symbol `p = Function('p', U, U, U)` — generic binary operation for
relative closure. -/
def p (a b : Term) : Term := Term.app2 "p" a b

/-- Constant `e = Const('e', U)`. -/
def e : Term := Term.const "e"

/-- Variables `x, y, z, w = Consts('x y z w', U)`. -/
def x : Term := Term.const "x"

def y : Term := Term.const "y"

def z : Term := Term.const "z"

def w : Term := Term.const "w"

/-- Derived macro `t(a,b) := f(f(a, b), b)` of the script. -/
def t (a b : Term) : Term := f (f a b) b

/-- Derived macro `v(a,b) := t(t(a, b), a)` of the script. -/
def v (a b : Term) : Term := t (t a b) a

/-- Helper `P(*args)` applies `p` left-associatively; the script raises
`ValueError("Function P requires at least one argument.")` on zero
arguments, modelled as `Except.error`.  The loop
`res = args[0]; for arg in args[1:]: res = p(res, arg)` is a left fold. -/
def P : List Term → Except String Term
  | [] => Except.error "Function P requires at least one argument."
  | a :: rest => Except.ok (rest.foldl p a)

/-- Helper `M(*args)` applies `m` left-associatively, failing on zero arguments. -/
def M : List Term → Except String Term
  | [] => Except.error "Function M requires at least one argument."
  | a :: rest => Except.ok (rest.foldl m a)

/-- Helper `F(*args)` applies `f` left-associatively, failing on zero arguments. -/
def F : List Term → Except String Term
  | [] => Except.error "Function F requires at least one argument."
  | a :: rest => Except.ok (rest.foldl f a)

/-- Number of operator-application nodes in a term. -/
def appCount : Term → Nat
  | Term.const _ => 0
  | Term.app2 _ a b => appCount a + appCount b + 1

/-- Boolean-sorted Z3 ASTs as used by the script: equations between terms,
`Not`, `And`, `Implies` and `ForAll`. -/
inductive Formula where
  | eq : Term → Term → Formula
  | fnot : Formula → Formula
  | fand : Formula → Formula → Formula
  | fimplies : Formula → Formula → Formula
  | fall : List String → Formula → Formula
deriving DecidableEq, Repr

/-- A Z3 `Solver()` as the script uses it: the constraints added so far plus
the value last given to `s.set("timeout", ...)` (milliseconds). -/
structure Solver where
  constraints : List Formula
  timeoutMs : Nat
deriving DecidableEq, Repr

/-- Expression `Solver()` — a fresh solver with no constraints and no timeout set. -/
def Solver.init : Solver := Solver.mk [] 0

/-- Method `s.set(key, v)` — only the "timeout" parameter is relevant here. -/
def Solver.set (s : Solver) (key : String) (v : Nat) : Solver :=
  if key = "timeout" then Solver.mk s.constraints v else s

/-- Method `s.add(assumptions)` with a list argument: all formulas are appended as
hard constraints. -/
def Solver.add (s : Solver) (fs : List Formula) : Solver :=
  Solver.mk (s.constraints ++ fs) s.timeoutMs

/-- Method `s.add(φ)` with a single formula argument. -/
def Solver.addOne (s : Solver) (φ : Formula) : Solver :=
  Solver.mk (s.constraints ++ [φ]) s.timeoutMs

/-- The three-valued answer of `s.check()`: `unsat`, `sat` or `unknown`. -/
inductive Z3Result where
  | unsat : Z3Result
  | sat : Z3Result
  | unknown : Z3Result
deriving DecidableEq, Repr

/-- The external decision procedure together with the wall clock: from the
solver state (constraints and timeout), the answer of `s.check()` and the
elapsed seconds `end_time - start_time` measured around the call. -/
def Oracle : Type := Solver → Z3Result × Rat

/-- The classification at lines 63-81 of the script: `unsat` → "holds",
`sat` → "doesn't hold", anything else → "unknown". -/
def classify (result : Z3Result) : String :=
  if result = Z3Result.unsat then "holds"
  else if result = Z3Result.sat then "doesn't hold"
  else "unknown"

/-- One line of console output, with the data each `print` interpolates. -/
inductive OutLine where
  | dashes : Nat → OutLine
  | equals : Nat → OutLine
  | text : String → OutLine
  | numAssumptions : Nat → OutLine
  | timeoutPerCheck : Rat → OutLine
  | checkHeader : Nat → Nat → OutLine
  | conclDisplay : String → OutLine
  | resultLine : String → Rat → OutLine
deriving DecidableEq, Repr

/-- The `try/except` chain printing the conclusion (lines 47-54):
`print(f"  {concl}")`, falling back to `concl.sexpr()`, falling back to the
placeholder text.  The two fallible stringifiers are parameters (`none`
models the exception). -/
def traceConcl (disp sexpr : Formula → Option String) (concl : Formula) :
    OutLine :=
  match disp concl with
  | some s => OutLine.conclDisplay s
  | none =>
    match sexpr concl with
    | some s => OutLine.conclDisplay s
    | none => OutLine.conclDisplay "[Could not format conclusion]"

/-- The message text printed next to each classification. -/
def resultMessage (result : Z3Result) : String :=
  if result = Z3Result.unsat then "HOLDS (Assumptions entail Conclusion)"
  else if result = Z3Result.sat then "DOESN'T HOLD (Found countermodel/scenario)"
  else "UNKNOWN (Timeout or resource limit?)"

/-- Lines 40-44 of the script: a fresh `Solver()`, `s.set("timeout",
timeout_ms)`, `s.add(assumptions)`, `s.add(Not(concl))`. -/
def sessionFor (assumptions : List Formula) (concl : Formula)
    (timeout_ms : Nat) : Solver :=
  ((Solver.init.set "timeout" timeout_ms).add assumptions).addOne
    (Formula.fnot concl)

/-- One iteration of the `for i, concl in enumerate(conclusions)` loop:
builds the session, prints the check header and the conclusion, queries the
oracle, classifies, and prints the result line and the 25-dash separator.
Returns the string appended to `results` and the lines printed. -/
def checkOne (oracle : Oracle) (disp sexpr : Formula → Option String)
    (assumptions : List Formula) (timeout_ms n i : Nat) (concl : Formula) :
    String × List OutLine :=
  let s := sessionFor assumptions concl timeout_ms
  let r := oracle s
  let status := classify r.fst
  (status,
    [OutLine.checkHeader (i + 1) n, traceConcl disp sexpr concl,
     OutLine.resultLine (resultMessage r.fst) r.snd, OutLine.dashes 25])

/-- The whole `for` loop over the conclusions, carrying the running index
`i` and the total count `n`; collects the `results` list and the printed
lines in order. -/
def checkLoop (oracle : Oracle) (disp sexpr : Formula → Option String)
    (assumptions : List Formula) (timeout_ms n : Nat) :
    Nat → List Formula → List String × List OutLine
  | _, [] => ([], [])
  | i, concl :: rest =>
    let one := checkOne oracle disp sexpr assumptions timeout_ms n i concl
    let more := checkLoop oracle disp sexpr assumptions timeout_ms n (i + 1) rest
    (one.fst :: more.fst, one.snd ++ more.snd)

/-- The header printed before the loop (lines 33-37): a 70-dash banner,
"Starting Z3 Checks...", the assumption count, the timeout in seconds
(`timeout_ms / 1000.0`), and another 70-dash banner. -/
def headerLines (assumptions : List Formula) (timeout_ms : Nat) :
    List OutLine :=
  [OutLine.dashes 70, OutLine.text "Starting Z3 Checks...",
   OutLine.numAssumptions assumptions.length,
   OutLine.timeoutPerCheck ((timeout_ms : Rat) / 1000),
   OutLine.dashes 70]

/-- The footer printed after the loop (lines 84-86). -/
def footerLines : List OutLine :=
  [OutLine.dashes 70, OutLine.text "Checks Complete.", OutLine.dashes 70]

/-- Function `check(assumptions, conclusions, timeout_ms)`: returns the `results`
list of status strings, paired with the full console output. -/
def check (oracle : Oracle) (disp sexpr : Formula → Option String)
    (assumptions conclusions : List Formula) (timeout_ms : Nat) :
    List String × List OutLine :=
  let body := checkLoop oracle disp sexpr assumptions timeout_ms
    conclusions.length 0 conclusions
  (body.fst, headerLines assumptions timeout_ms ++ body.snd ++ footerLines)

/-- In the script the `timeout_ms` parameter of `check` defaults to 1000. -/
def defaultTimeoutMs : Nat := 1000

/-- Call `check(assumptions, conclusions)` invoked without an explicit timeout
argument uses the default of `defaultTimeoutMs` milliseconds. -/
def checkDefault (oracle : Oracle) (disp sexpr : Formula → Option String)
    (assumptions conclusions : List Formula) : List String × List OutLine :=
  check oracle disp sexpr assumptions conclusions defaultTimeoutMs


/-! ### Helper lemmas -/

/-- Counting applications through a left fold of a binary application. -/
theorem appCount_foldl (op : Term → Term → Term)
    (hop : ∀ a b, appCount (op a b) = appCount a + appCount b + 1) :
    ∀ (l : List Term) (a : Term),
      appCount (l.foldl op a)
        = appCount a + ((l.map appCount).sum + l.length) := by
  intro l
  induction l with
  | nil => intro a; simp
  | cons b rest ih =>
    intro a
    simp only [List.foldl_cons, List.map_cons, List.sum_cons, List.length_cons,
      ih, hop]
    ring

/-- The results list produced by the check loop is the classification of the
oracle's answer on the session built for each conclusion, independently of
the running index, the total count and the stringifiers. -/
theorem checkLoop_fst (oracle : Oracle) (disp sexpr : Formula → Option String)
    (A : List Formula) (tm n : Nat) :
    ∀ (i : Nat) (C : List Formula),
      (checkLoop oracle disp sexpr A tm n i C).fst
        = C.map (fun c => classify (oracle (sessionFor A c tm)).fst) := by
  intro i C
  induction C generalizing i with
  | nil => rfl
  | cons c rest ih => simp [checkLoop, checkOne, ih]

/-- The value returned by `check` is the per-conclusion classification map. -/
theorem check_fst (oracle : Oracle) (disp sexpr : Formula → Option String)
    (A C : List Formula) (tm : Nat) :
    (check oracle disp sexpr A C tm).fst
      = C.map (fun c => classify (oracle (sessionFor A c tm)).fst) := by
  simp [check, checkLoop_fst]

/-- Every classification is one of the three report strings. -/
theorem classify_cases (r : Z3Result) :
    classify r = "holds" ∨ classify r = "doesn't hold" ∨
      classify r = "unknown" := by
  cases r <;> simp [classify]

/-- The session passed to the oracle holds exactly the assumptions followed
by the negated conclusion, and the configured timeout. -/
theorem sessionFor_spec (A : List Formula) (c : Formula) (tm : Nat) :
    (sessionFor A c tm).constraints = A ++ [Formula.fnot c] ∧
      (sessionFor A c tm).timeoutMs = tm := by
  constructor <;> simp [sessionFor, Solver.init, Solver.set, Solver.add,
    Solver.addOne]

/-- Concrete oracle used by witnesses: always answers `unsat` in one second. -/
def oUnsat : Oracle := fun _ => (Z3Result.unsat, 1)

/-- Concrete stringifier used by witnesses: always succeeds. -/
def dispSome : Formula → Option String := fun _ => some "e == e"

/-- Concrete failing stringifier used by witnesses. -/
def dispNone : Formula → Option String := fun _ => none

/-- Concrete S-expression stringifier used by witnesses. -/
def sexprSome : Formula → Option String := fun _ => some "(= e e)"

/-! ### Claim theorems -/

/-- C1: for every assumptions list, conclusions list and timeout, `check`
classifies each conclusion by mapping the oracle three-valued decision
exactly as `unsat` → "holds", `sat` → "doesn't hold", any other outcome →
"unknown", and every element of the returned sequence is one of these
three strings. -/
theorem C1_check_classification (oracle : Oracle)
    (disp sexpr : Formula → Option String) (A C : List Formula) (tm : Nat) :
    (check oracle disp sexpr A C tm).fst
        = C.map (fun c => classify (oracle (sessionFor A c tm)).fst) ∧
    classify Z3Result.unsat = "holds" ∧
    classify Z3Result.sat = "doesn't hold" ∧
    classify Z3Result.unknown = "unknown" ∧
    ∀ r ∈ (check oracle disp sexpr A C tm).fst,
      r = "holds" ∨ r = "doesn't hold" ∨ r = "unknown" := by
  refine ⟨check_fst .., by decide, by decide, by decide, ?_⟩
  intro r hr
  rw [check_fst] at hr
  obtain ⟨c, _, rfl⟩ := List.mem_map.mp hr
  exact classify_cases _

/-- Witness for C1 at a concrete run. -/
theorem C1_check_classification_w :
    "holds" = "holds" ∨ "holds" = "doesn't hold" ∨ "holds" = "unknown" :=
  (C1_check_classification oUnsat dispSome sexprSome [] [Formula.eq e e]
      1000).2.2.2.2 "holds" (by decide)

/-- C2: the sequence returned by `check` has exactly one result per input
conclusion — its length equals the length of the conclusions list, and the
i-th result is the classification of the i-th conclusion. -/
theorem C2_check_length_order (oracle : Oracle)
    (disp sexpr : Formula → Option String) (A C : List Formula) (tm : Nat) :
    (check oracle disp sexpr A C tm).fst.length = C.length ∧
    ∀ (i : Nat) (c : Formula), C[i]? = some c →
      ((check oracle disp sexpr A C tm).fst)[i]?
        = some (classify (oracle (sessionFor A c tm)).fst) := by
  constructor
  · rw [check_fst]; exact List.length_map ..
  · intro i c hc
    rw [check_fst, List.getElem?_map, hc]
    rfl

/-- Witness for C2 at a concrete run. -/
theorem C2_check_length_order_w :
    ((check oUnsat dispSome sexprSome [] [Formula.eq e e] 1000).fst)[0]?
      = some (classify (oUnsat (sessionFor [] (Formula.eq e e) 1000)).fst) :=
  (C2_check_length_order oUnsat dispSome sexprSome [] [Formula.eq e e]
      1000).2 0 (Formula.eq e e) rfl

/-- C3 counterexample: two runs differing only in the measured elapsed time
return the identical results list, whose sole element is the bare status
string "holds" — the value returned by `check` carries no elapsed-seconds
component, so its elements are not {status, elapsedSeconds} records. -/
theorem C3_counterexample :
    (check (fun _ => (Z3Result.unsat, (1 : Rat))) dispSome sexprSome []
        [Formula.eq e e] 1000).fst = ["holds"] ∧
    (check (fun _ => (Z3Result.unsat, (2 : Rat))) dispSome sexprSome []
        [Formula.eq e e] 1000).fst = ["holds"] := by
  constructor <;> rfl

/-- C3 amended: each element of the sequence returned by `check` is the
status string alone; the elapsed seconds is printed in the per-check trace
but is not part of the return value, which is invariant under changes of
the measured durations. -/
theorem C3_amended_status_only (dec : Solver → Z3Result)
    (dur1 dur2 : Solver → Rat) (disp sexpr : Formula → Option String)
    (A C : List Formula) (tm : Nat) :
    (check (fun s => (dec s, dur1 s)) disp sexpr A C tm).fst
        = (check (fun s => (dec s, dur2 s)) disp sexpr A C tm).fst ∧
    (check (fun s => (dec s, dur1 s)) disp sexpr A C tm).fst
        = C.map (fun c => classify (dec (sessionFor A c tm))) := by
  constructor <;> simp [check_fst]

/-- C4: each left-associative helper on a single operand returns that
operand (zero applications); appending one more operand applies the
operator once more on the left-nested result (so the shape is
op(op(...op(o1,o2)...),oN)); and on N operands the result carries exactly
N−1 operator applications beyond those already inside the operands. -/
theorem C4_left_assoc_fold :
    (∀ a : Term, P [a] = Except.ok a ∧ M [a] = Except.ok a ∧
      F [a] = Except.ok a) ∧
    (∀ (a : Term) (l : List Term) (b : Term),
      P (a :: (l ++ [b])) = Except.map (fun r => p r b) (P (a :: l)) ∧
      M (a :: (l ++ [b])) = Except.map (fun r => m r b) (M (a :: l)) ∧
      F (a :: (l ++ [b])) = Except.map (fun r => f r b) (F (a :: l))) ∧
    (∀ (a : Term) (l : List Term) (r : Term),
      P (a :: l) = Except.ok r →
        appCount r = ((a :: l).map appCount).sum + ((a :: l).length - 1)) ∧
    (∀ (a : Term) (l : List Term) (r : Term),
      M (a :: l) = Except.ok r →
        appCount r = ((a :: l).map appCount).sum + ((a :: l).length - 1)) ∧
    (∀ (a : Term) (l : List Term) (r : Term),
      F (a :: l) = Except.ok r →
        appCount r = ((a :: l).map appCount).sum + ((a :: l).length - 1)) := by
  refine ⟨fun a => ⟨rfl, rfl, rfl⟩, fun a l b => ?_, ?_, ?_, ?_⟩
  · refine ⟨?_, ?_, ?_⟩ <;> simp [P, M, F, List.foldl_append, Except.map]
  all_goals
    intro a l r h
    simp only [P, M, F, Except.ok.injEq] at h
    subst h
  · rw [appCount_foldl p (fun a b => by simp [p, appCount])]
    simp only [List.map_cons, List.sum_cons, List.length_cons]
    omega
  · rw [appCount_foldl m (fun a b => by simp [m, appCount])]
    simp only [List.map_cons, List.sum_cons, List.length_cons]
    omega
  · rw [appCount_foldl f (fun a b => by simp [f, appCount])]
    simp only [List.map_cons, List.sum_cons, List.length_cons]
    omega

/-- Witness for C4 at the three operands x, y, z. -/
theorem C4_left_assoc_fold_w :
    appCount (p (p x y) z)
      = (([x, y, z] : List Term).map appCount).sum
        + (([x, y, z] : List Term).length - 1) :=
  C4_left_assoc_fold.2.2.1 x [y, z] (p (p x y) z) rfl

/-- C5: each left-associative helper fails on zero operands with the
arity error (constructing no term), and on any non-empty operand list it
succeeds — the empty list is the only error condition. -/
theorem C5_empty_args_error :
    P [] = Except.error "Function P requires at least one argument." ∧
    M [] = Except.error "Function M requires at least one argument." ∧
    F [] = Except.error "Function F requires at least one argument." ∧
    ∀ (a : Term) (l : List Term),
      (∃ r, P (a :: l) = Except.ok r) ∧ (∃ r, M (a :: l) = Except.ok r) ∧
      ∃ r, F (a :: l) = Except.ok r := by
  refine ⟨rfl, rfl, rfl, fun a l => ⟨⟨_, rfl⟩, ⟨_, rfl⟩, ⟨_, rfl⟩⟩⟩

/-- C6: the derived macro `t` expands structurally to exactly f(f(a,b),b)
and the derived macro `v` to exactly t(t(a,b),a), that is,
f(f(f(f(a,b),b),a),a), with that argument order and no normalization. -/
theorem C6_derived_macros :
    ∀ a b : Term,
      t a b = f (f a b) b ∧ v a b = t (t a b) a ∧
      v a b = f (f (f (f a b) b) a) a :=
  fun _ _ => ⟨rfl, rfl, rfl⟩

/-- C7: each conclusion is checked in a fresh independent session holding
exactly the assumptions plus the negation of that one conclusion, with the
configured timeout; the classification at a position depends only on the
assumptions, the conclusion at that position and the timeout — the other
conclusions, their order, and the stringifiers do not affect it. -/
theorem C7_check_independence (oracle : Oracle)
    (disp sexpr disp2 sexpr2 : Formula → Option String) (A : List Formula)
    (tm : Nat) (C D : List Formula) (i j : Nat) (c : Formula)
    (h1 : C[i]? = some c) (h2 : D[j]? = some c) :
    ((check oracle disp sexpr A C tm).fst)[i]?
        = some (classify (oracle (sessionFor A c tm)).fst) ∧
    ((check oracle disp2 sexpr2 A D tm).fst)[j]?
        = some (classify (oracle (sessionFor A c tm)).fst) ∧
    (sessionFor A c tm).constraints = A ++ [Formula.fnot c] ∧
    (sessionFor A c tm).timeoutMs = tm := by
  refine ⟨?_, ?_, (sessionFor_spec A c tm).1, (sessionFor_spec A c tm).2⟩
  · rw [check_fst, List.getElem?_map, h1]; rfl
  · rw [check_fst, List.getElem?_map, h2]; rfl

/-- Witness for C7: the same conclusion at different positions of two
different conclusion lists gets the same classification. -/
theorem C7_check_independence_w :
    ((check oUnsat dispSome sexprSome []
        [Formula.eq e e, Formula.eq x x] 1000).fst)[0]?
      = some (classify (oUnsat (sessionFor [] (Formula.eq e e) 1000)).fst) :=
  (C7_check_independence oUnsat dispSome sexprSome dispSome sexprSome []
      1000 [Formula.eq e e, Formula.eq x x] [Formula.eq x x, Formula.eq e e]
      0 1 (Formula.eq e e) rfl rfl).1

/-- C8: a display failure on a conclusion is recovered locally — the trace
falls back to the S-expression and then to the placeholder text — and it
never affects the returned classifications, which are the same as with any
working stringifier and still cover every conclusion. -/
theorem C8_format_fallback (oracle : Oracle)
    (disp sexpr disp2 sexpr2 : Formula → Option String) (A C : List Formula)
    (tm : Nat) (c : Formula) (h : disp c = none) :
    (check oracle disp sexpr A C tm).fst
        = (check oracle disp2 sexpr2 A C tm).fst ∧
    traceConcl disp sexpr c
        = (match sexpr c with
           | some s => OutLine.conclDisplay s
           | none => OutLine.conclDisplay "[Could not format conclusion]") ∧
    (check oracle disp sexpr A C tm).fst.length = C.length := by
  refine ⟨by simp [check_fst], ?_, by simp [check_fst]⟩
  cases hs : sexpr c <;> simp [traceConcl, h, hs]

/-- Witness for C8: a failing display falls back to the S-expression. -/
theorem C8_format_fallback_w :
    traceConcl dispNone sexprSome (Formula.eq e e)
      = OutLine.conclDisplay "(= e e)" :=
  (C8_format_fallback oUnsat dispNone sexprSome dispSome sexprSome [] []
      1000 (Formula.eq e e) rfl).2.1

/-- C9: invoked without an explicit timeout argument, `check` uses the
default budget of 1000 milliseconds; each solver session is configured
with timeout 1000, and the header line reports the timeout as 1 second. -/
theorem C9_default_timeout (oracle : Oracle)
    (disp sexpr : Formula → Option String) (A C : List Formula) :
    checkDefault oracle disp sexpr A C = check oracle disp sexpr A C 1000 ∧
    (checkDefault oracle disp sexpr A C).fst
        = C.map (fun c => classify (oracle (sessionFor A c 1000)).fst) ∧
    (∀ c : Formula, (sessionFor A c 1000).timeoutMs = 1000) ∧
    ((checkDefault oracle disp sexpr A C).snd)[3]?
        = some (OutLine.timeoutPerCheck 1) := by
  refine ⟨rfl, ?_, fun c => (sessionFor_spec A c 1000).2, ?_⟩
  · rw [show checkDefault oracle disp sexpr A C
        = check oracle disp sexpr A C 1000 from rfl, check_fst]
  · have h1 : ((1000 : Rat) / 1000) = 1 := by norm_num
    simp [checkDefault, defaultTimeoutMs, check, headerLines, h1]

/-- C10: on an empty conclusions list, `check` returns the empty result
sequence, prints only the header and completion banners, and never
consults the oracle or the stringifiers. -/
theorem C10_empty_conclusions (oracle oracle2 : Oracle)
    (disp sexpr disp2 sexpr2 : Formula → Option String) (A : List Formula)
    (tm : Nat) :
    (check oracle disp sexpr A [] tm).fst = [] ∧
    (check oracle disp sexpr A [] tm).snd
        = headerLines A tm ++ footerLines ∧
    check oracle disp sexpr A [] tm = check oracle2 disp2 sexpr2 A [] tm := by
  refine ⟨rfl, ?_, rfl⟩
  simp [check, checkLoop]

end Z3V
